import Mathlib

/-!
# Verification of the portfolio-tracker client-side store and quote client

A shallow embedding of the state-management core of the portfolio-tracker
repository: the Zustand store slices (`portfolioSlice`, `dashboardSlice`,
the composed store's `importState`), the grid layout reconciliation in
`WidgetGrid.tsx`, and the quote-fetch client (`fetchWithRetry`,
`fetchQuotes`, `ApiError.fromResponse`, the `useQuotes` cache key).

Modelling conventions:
* JS strings are Lean `String`s; JS numbers carried (never computed on) by the
  store are modelled as `Int`.
* `null`-able values are `Option`s; a JS field that may be absent from
  untrusted data (persisted/imported JSON) is an `Option` as well.
* A thrown validation error becomes `Except String`.
* `crypto.randomUUID()` and `new Date().toISOString()` are modelled as
  explicit arguments (`freshId`, `now`) supplied by the caller.
* Every Zustand `set` call merges the listed fields into the state and leaves
  the rest untouched; this is a Lean structure-update, which also makes the
  one-`set`-call atomicity of each mutator structural.
-/

namespace PortfolioTracker

/-! ## Data model (types from `src/types`) -/

/-- `WidgetLayout` from the types module: one grid entry per widget per
breakpoint. The TS field `static` is the Lean field `isStatic`. -/
structure WidgetLayout where
  i : String
  x : Int
  y : Int
  w : Int
  h : Int
  minW : Option Int := none
  minH : Option Int := none
  isStatic : Option Bool := none
deriving DecidableEq, Repr

/-- `WidgetInstance` from the types module. The opaque `settings` bag is
modelled as an association list. -/
structure WidgetInstance where
  id : String
  type : String
  title : Option String := none
  settings : List (String × String) := []
  addedAt : String
deriving DecidableEq, Repr

/-- `Holding` from the types module. -/
structure Holding where
  id : String
  symbol : String
  name : String
  shares : Int
  avgCostBasis : Int
  purchaseDate : String
  notes : Option String := none
  createdAt : String
  updatedAt : String
deriving DecidableEq, Repr

/-- Portfolio currency enum `"USD" | "EUR" | "GBP"`. -/
inductive Currency
  | USD
  | EUR
  | GBP
deriving DecidableEq, Repr

/-- `Portfolio` from the types module. -/
structure Portfolio where
  id : String
  name : String
  currency : Currency
  createdAt : String
  holdings : List Holding
deriving DecidableEq, Repr

/-- Transaction type enum. -/
inductive TxType
  | BUY
  | SELL
  | DIVIDEND
  | SPLIT
deriving DecidableEq, Repr

/-- `Transaction` from the types module. -/
structure Transaction where
  id : String
  holdingId : String
  type : TxType
  shares : Int
  pricePerShare : Int
  date : String
  fees : Option Int := none
deriving DecidableEq, Repr

/-- The three per-breakpoint layout arrays (`DashboardConfig["layouts"]`). -/
structure Layouts where
  lg : List WidgetLayout
  md : List WidgetLayout
  sm : List WidgetLayout
deriving DecidableEq, Repr

/-- The `layouts` object of a saved view's config as it comes back from
persisted or imported JSON: each breakpoint array may be absent. -/
structure LayoutsField where
  lg : Option (List WidgetLayout) := none
  md : Option (List WidgetLayout) := none
  sm : Option (List WidgetLayout) := none
deriving DecidableEq, Repr

/-- The `widgets` field of a saved view's config as untrusted data: either an
actual array (`Array.isArray` succeeds) or some non-array value. -/
inductive WidgetsField
  | arr (ws : List WidgetInstance)
  | notArray
deriving DecidableEq, Repr

/-- A saved view's `config` as untrusted data (`loadView` defends against
missing pieces, so the pieces are `Option`s here). -/
structure ViewConfig where
  layouts : Option LayoutsField := none
  widgets : Option WidgetsField := none
  theme : String := "dark"
  accentColor : String := "emerald"
deriving DecidableEq, Repr

/-- `SavedView` from the types module, with `config` as untrusted data. -/
structure SavedView where
  id : String
  name : String
  isDefault : Bool
  createdAt : String
  updatedAt : String
  config : Option ViewConfig := none
deriving DecidableEq, Repr

/-- `WatchlistItem` from the UI slice. -/
structure WatchlistItem where
  symbol : String
  addedAt : String
deriving DecidableEq, Repr

/-- The composed Zustand store state: portfolio slice + dashboard slice +
UI slice fields (the persisted whitelist). -/
structure StoreState where
  portfolios : List Portfolio
  activePortfolioId : Option String
  transactions : List Transaction
  layouts : Layouts
  widgets : List WidgetInstance
  savedViews : List SavedView
  activeViewId : Option String
  theme : String
  watchlist : List WatchlistItem
deriving DecidableEq, Repr

/-! ## JS string primitives

`String.prototype.trim` and the character class `\s` of the portfolio-name
regex `/^[a-zA-Z0-9\s\-_]+$/`. Per ECMA-262, `trim` strips exactly the
WhiteSpace and LineTerminator code points, which coincide with the set the
`\s` class matches. -/

/-- The ECMAScript WhiteSpace ∪ LineTerminator code points (what both
`String.prototype.trim` strips and the regex class `\s` matches). -/
def isJsWhitespace (c : Char) : Bool :=
  c = ' ' || c = '\t' || c = '\n' || c = '\r' ||
  c = '\x0b' || c = '\x0c' ||
  c.val = 0x00a0 || c.val = 0x1680 ||
  (0x2000 ≤ c.val && c.val ≤ 0x200a) ||
  c.val = 0x2028 || c.val = 0x2029 ||
  c.val = 0x202f || c.val = 0x205f || c.val = 0x3000 || c.val = 0xfeff

/-- `String.prototype.trim`: drop leading and trailing JS whitespace. -/
def jsTrim (s : String) : String :=
  String.mk (((s.data.dropWhile isJsWhitespace).reverse.dropWhile
    isJsWhitespace).reverse)

/-- One character of the portfolio/view name character class
`[a-zA-Z0-9\s\-_]`. -/
def nameCharOk (c : Char) : Bool :=
  ('a' ≤ c && c ≤ 'z') || ('A' ≤ c && c ≤ 'Z') || ('0' ≤ c && c ≤ '9') ||
  isJsWhitespace c || c = '-' || c = '_'

/-- `PORTFOLIO_NAME_REGEX.test`: the anchored regex `/^[a-zA-Z0-9\s\-_]+$/`
accepts exactly the nonempty strings all of whose characters are in the
class. -/
def nameRegexTest (s : String) : Bool :=
  !s.data.isEmpty && s.data.all nameCharOk

/-! ## Portfolio slice operations (`portfolioSlice`) -/

/-- `MAX_PORTFOLIO_NAME_LENGTH`. -/
def MAX_PORTFOLIO_NAME_LENGTH : Nat := 50

/-- `createPortfolio` from the portfolio slice: trims the name, validates it
(throwing on empty / too long / characters outside the regex class), then
appends a fresh portfolio and makes it active when none was. -/
def createPortfolio (freshId now : String) (name : String)
    (currency : Currency) (s : StoreState) :
    Except String (String × StoreState) :=
  let trimmedName := jsTrim name
  if trimmedName.data.isEmpty then
    .error "Portfolio name cannot be empty"
  else if trimmedName.data.length > MAX_PORTFOLIO_NAME_LENGTH then
    .error "Portfolio name cannot exceed 50 characters"
  else if !nameRegexTest trimmedName then
    .error
      "Portfolio name can only contain letters, numbers, spaces, hyphens, and underscores"
  else
    let newPortfolio : Portfolio :=
      { id := freshId, name := trimmedName, currency := currency,
        createdAt := now, holdings := [] }
    .ok (freshId,
      { s with
        portfolios := s.portfolios ++ [newPortfolio],
        activePortfolioId := some (s.activePortfolioId.getD freshId) })

/-- The caller-supplied holding data of `addHolding`
(`Omit<Holding, "id" | "createdAt" | "updatedAt">`). -/
structure HoldingData where
  symbol : String
  name : String
  shares : Int
  avgCostBasis : Int
  purchaseDate : String
  notes : Option String := none
deriving DecidableEq, Repr

/-- `addHolding` from the portfolio slice: stamps a fresh id and timestamps,
then appends the holding to the portfolio whose id equals the active id (all
other portfolios are mapped to themselves). -/
def addHolding (freshId now : String) (data : HoldingData) (s : StoreState) :
    String × StoreState :=
  let newHolding : Holding :=
    { id := freshId, symbol := data.symbol, name := data.name,
      shares := data.shares, avgCostBasis := data.avgCostBasis,
      purchaseDate := data.purchaseDate, notes := data.notes,
      createdAt := now, updatedAt := now }
  (freshId,
    { s with
      portfolios := s.portfolios.map fun p =>
        if some p.id = s.activePortfolioId then
          { p with holdings := p.holdings ++ [newHolding] }
        else p })

/-- `deleteHolding` from the portfolio slice: one `set` call that filters the
holding out of the active portfolio and filters every transaction whose
`holdingId` matches out of the transaction list. -/
def deleteHolding (id : String) (s : StoreState) : StoreState :=
  { s with
    portfolios := s.portfolios.map fun p =>
      if some p.id = s.activePortfolioId then
        { p with holdings := p.holdings.filter fun h => h.id ≠ id }
      else p,
    transactions := s.transactions.filter fun t => t.holdingId ≠ id }

/-! ## Dashboard slice operations (`dashboardSlice`) -/

/-- `loadView` from the dashboard slice: looks the view up by id; only when
the view exists, its config (with `layouts` and `widgets`) is present, all
three breakpoint arrays are present, and `widgets` is an array, does it
replace the live layouts/widgets and the active view id; otherwise nothing is
set. `structuredClone` is the identity on these immutable values. -/
def loadView (id : String) (s : StoreState) : StoreState :=
  match s.savedViews.find? fun v => v.id = id with
  | none => s
  | some view =>
    match view.config with
    | none => s
    | some cfg =>
      match cfg.layouts, cfg.widgets with
      | some lf, some wf =>
        match lf.lg, lf.md, lf.sm, wf with
        | some lg, some md, some sm, .arr ws =>
          { s with
            layouts := { lg := lg, md := md, sm := sm },
            widgets := ws,
            activeViewId := some id }
        | _, _, _, _ => s
      | _, _ => s

/-- `deleteView` from the dashboard slice: filters the view out; when views
remain and none of them is default, promotes the first remaining view to
default; repoints `activeViewId` when it referenced the deleted view. -/
def deleteView (id : String) (s : StoreState) : StoreState :=
  let filtered := s.savedViews.filter fun v => v.id ≠ id
  let needsNewDefault := !filtered.isEmpty && filtered.all fun v => !v.isDefault
  let updatedViews :=
    if needsNewDefault then
      filtered.mapIdx fun i v =>
        if i = 0 then { v with isDefault := true } else v
    else filtered
  { s with
    savedViews := updatedViews,
    activeViewId :=
      if s.activeViewId = some id then updatedViews.head?.map (·.id)
      else s.activeViewId }

/-- `setDefaultView` from the dashboard slice: maps over every saved view,
setting `isDefault` to whether its id equals the argument. -/
def setDefaultView (id : String) (s : StoreState) : StoreState :=
  { s with
    savedViews := s.savedViews.map fun v =>
      { v with isDefault := decide (v.id = id) } }

/-! ## Grid layout reconciliation (`WidgetGrid.tsx`) -/

/-- A `LayoutItem` as emitted by the grid library on layout-change events: it
carries the canonical geometry fields plus library-internal extras (the
`moved` flag stands in for those) that `convertLayout` drops. -/
structure LayoutItem where
  i : String
  x : Int
  y : Int
  w : Int
  h : Int
  minW : Option Int := none
  minH : Option Int := none
  isStatic : Option Bool := none
  moved : Bool := false
deriving DecidableEq, Repr

/-- `convertLayout`: project an emitted `LayoutItem` onto the canonical
`WidgetLayout` shape. -/
def convertLayout (layout : LayoutItem) : WidgetLayout :=
  { i := layout.i, x := layout.x, y := layout.y, w := layout.w,
    h := layout.h, minW := layout.minW, minH := layout.minH,
    isStatic := layout.isStatic }

/-- The entry comparison inside `areLayoutsEqual.every`: same
`i`/`x`/`y`/`w`/`h`. -/
def layoutEntryEq (item other : WidgetLayout) : Bool :=
  item.i = other.i && item.x = other.x && item.y = other.y &&
  item.w = other.w && item.h = other.h

/-- `areLayoutsEqual` from `WidgetGrid.tsx`: false on differing lengths,
otherwise every positionally corresponding pair must agree on
`i`/`x`/`y`/`w`/`h` (the `if (!other) return false` guard of the source is
unreachable once the lengths agree, since the model has no sparse arrays). -/
def areLayoutsEqual (a b : List WidgetLayout) : Bool :=
  if a.length ≠ b.length then false
  else (a.zip b).all fun p => layoutEntryEq p.1 p.2

/-- The per-breakpoint arrays of a layout-change event
(`ResponsiveLayouts<string>`): any breakpoint may be absent. -/
structure EmittedLayouts where
  lg : Option (List LayoutItem) := none
  md : Option (List LayoutItem) := none
  sm : Option (List LayoutItem) := none
deriving DecidableEq, Repr

/-- The `convertedLayouts` local of `handleLayoutChange`: convert each
emitted breakpoint array, falling back to the currently stored array for an
absent breakpoint. -/
def convertedLayouts (allLayouts : EmittedLayouts) (currentLayouts : Layouts) :
    Layouts :=
  { lg := (allLayouts.lg.map (·.map convertLayout)).getD currentLayouts.lg,
    md := (allLayouts.md.map (·.map convertLayout)).getD currentLayouts.md,
    sm := (allLayouts.sm.map (·.map convertLayout)).getD currentLayouts.sm }

/-- `handleLayoutChange` from `WidgetGrid.tsx`: `some converted` when
`updateLayouts` is called with the converted layouts (at least one breakpoint
changed), `none` when the event is swallowed. -/
def handleLayoutChange (allLayouts : EmittedLayouts)
    (currentLayouts : Layouts) : Option Layouts :=
  let conv := convertedLayouts allLayouts currentLayouts
  let hasChanged :=
    !areLayoutsEqual conv.lg currentLayouts.lg ||
    !areLayoutsEqual conv.md currentLayouts.md ||
    !areLayoutsEqual conv.sm currentLayouts.sm
  if hasChanged then some conv else none

/-- `updateLayouts` from the dashboard slice: wholesale replace of the three
breakpoint arrays (the commit that also triggers the persistence write). -/
def updateLayouts (layouts : Layouts) (s : StoreState) : StoreState :=
  { s with layouts := layouts }

/-- Structural equality of two layout arrays exactly as the claim states it:
same length, and every positionally corresponding pair of entries has the
same `i`, `x`, `y`, `w` and `h`. -/
def StructurallyEqual (a b : List WidgetLayout) : Prop :=
  a.length = b.length ∧
  ∀ (idx : Nat) (ha : idx < a.length) (hb : idx < b.length),
    (a.get ⟨idx, ha⟩).i = (b.get ⟨idx, hb⟩).i ∧
    (a.get ⟨idx, ha⟩).x = (b.get ⟨idx, hb⟩).x ∧
    (a.get ⟨idx, ha⟩).y = (b.get ⟨idx, hb⟩).y ∧
    (a.get ⟨idx, ha⟩).w = (b.get ⟨idx, hb⟩).w ∧
    (a.get ⟨idx, ha⟩).h = (b.get ⟨idx, hb⟩).h

/-! ## Quote fetch client (error classification and retry) -/

/-- `ApiErrorCode` from the errors module. -/
inductive ApiErrorCode
  | NETWORK_ERROR
  | TIMEOUT
  | RATE_LIMIT
  | INVALID_RESPONSE
  | NOT_FOUND
  | SERVER_ERROR
  | VALIDATION_ERROR
deriving DecidableEq, Repr

/-- An `ApiError` instance: classification code, optional HTTP status, the
resolved `retryable` flag and the message. -/
structure ApiError where
  message : String
  code : ApiErrorCode
  statusCode : Option Nat := none
  retryable : Bool
deriving DecidableEq, Repr

/-- `ApiError.fromResponse`: classify an HTTP status into an error, mirroring
the source's branch order (429, then 404, then ≥500, then ≥400, then the
fallback). -/
def ApiErrorFromResponse (status : Nat) (message : Option String) : ApiError :=
  if status = 429 then
    { message := message.getD "Rate limit exceeded", code := .RATE_LIMIT,
      statusCode := some status, retryable := true }
  else if status = 404 then
    { message := message.getD "Resource not found", code := .NOT_FOUND,
      statusCode := some status, retryable := false }
  else if status ≥ 500 then
    { message := message.getD "Server error", code := .SERVER_ERROR,
      statusCode := some status, retryable := true }
  else if status ≥ 400 then
    { message := message.getD "Validation error", code := .VALIDATION_ERROR,
      statusCode := some status, retryable := false }
  else
    { message := message.getD ("HTTP " ++ toString status),
      code := .SERVER_ERROR, statusCode := some status, retryable := false }

/-- `MAX_RETRIES` of the quote client. -/
def MAX_RETRIES : Nat := 3

/-- `BASE_DELAY_MS` of the quote client. -/
def BASE_DELAY_MS : Nat := 1000

/-- What one run of the retry loop did: the outcome (an ok HTTP status or a
thrown `ApiError`), how many times the endpoint was fetched, and the backoff
delays that were slept between fetches. -/
structure RetryOutcome where
  result : Except ApiError Nat
  fetchCount : Nat
  delays : List Nat
deriving Repr

/-- The body of `fetchWithRetry`'s `for` loop from attempt number `attempt`
on. `responses attempt` is the HTTP status the endpoint answers on that
attempt. A 429 or ≥500 status raises the classified error, which is retried
after a `BASE_DELAY_MS * 2 ^ attempt` sleep while the error is retryable and
retries remain; any other status is returned. -/
def retryLoop (responses : Nat → Nat) (maxRetries attempt : Nat) :
    RetryOutcome :=
  let status := responses attempt
  if status = 429 ∨ status ≥ 500 then
    let e := ApiErrorFromResponse status none
    if e.retryable ∧ attempt < maxRetries then
      let delay := BASE_DELAY_MS * 2 ^ attempt
      let rest := retryLoop responses maxRetries (attempt + 1)
      { result := rest.result, fetchCount := rest.fetchCount + 1,
        delays := delay :: rest.delays }
    else
      { result := .error e, fetchCount := 1, delays := [] }
  else
    { result := .ok status, fetchCount := 1, delays := [] }
termination_by maxRetries - attempt
decreasing_by omega

/-- `fetchWithRetry` starts the loop at attempt 0. -/
def fetchWithRetry (responses : Nat → Nat) (maxRetries : Nat := MAX_RETRIES) :
    RetryOutcome :=
  retryLoop responses maxRetries 0

/-- `response.ok`: status in the 200–299 range. -/
def responseOk (status : Nat) : Bool := 200 ≤ status && status < 300

/-- The control flow of `fetchQuotes` for a nonempty symbol list, abstracted
over the endpoint's per-attempt statuses: fetch with retry, then throw the
classified error when the final response is not ok. -/
def fetchQuotesRun (responses : Nat → Nat) : RetryOutcome :=
  let r := fetchWithRetry responses
  match r.result with
  | .error e => { r with result := .error e }
  | .ok status =>
    if responseOk status then r
    else { r with result := .error (ApiErrorFromResponse status none) }

/-- The request URL `fetchQuotes` builds: the symbols joined by commas, in
the order given (no sorting happens in `fetchQuotes`). -/
def fetchQuotesUrl (symbols : List String) : String :=
  "/api/quotes?symbols=" ++ String.intercalate "," symbols

/-! ## The `useQuotes` cache key (`useQuotes.ts`)

`useQuotes` computes `[...symbols].sort().join(",")` and uses it as the React
Query cache key. The default `Array.prototype.sort` comparator orders strings
lexicographically by code unit; the model sorts (stably, as ECMAScript
requires) by the corresponding lexicographic order on the character data. -/

/-- Lexicographic code-point comparison of character data, the order the JS
default sort comparator induces on strings. -/
def jsStrLeData : List Char → List Char → Bool
  | [], _ => true
  | _ :: _, [] => false
  | a :: as, b :: bs =>
    if a < b then true
    else if b < a then false
    else jsStrLeData as bs

/-- The JS default string comparison, on whole strings. -/
def jsStrLe (a b : String) : Bool := jsStrLeData a.data b.data

/-- The relation `Array.prototype.sort` sorts by. -/
def JsStrOrder (a b : String) : Prop := jsStrLe a b = true

instance : DecidableRel JsStrOrder := fun a b => by
  unfold JsStrOrder; infer_instance

/-- `[...symbols].sort()`: a stable sort of a copy of the symbol array by the
default comparator. -/
def jsSortStrings (symbols : List String) : List String :=
  List.insertionSort JsStrOrder symbols

/-- The `sortedKey` of `useQuotes`: `[...symbols].sort().join(",")`, the
React Query cache key component identifying the request. -/
def useQuotesSortedKey (symbols : List String) : String :=
  String.intercalate "," (jsSortStrings symbols)

/-! ## Import (`importState` in the composed store, `handleImport` in
`DataManagement.tsx`) -/

/-- An array-valued field of an import document: absent, present but not an
array (`Array.isArray` fails), or an actual array. -/
inductive ImpArr (α : Type)
  | absent
  | notArray
  | arr (l : List α)
deriving DecidableEq, Repr

/-- The `layouts` field of an import document: each breakpoint member may be
absent or a non-array. -/
structure ImpLayouts where
  lg : ImpArr WidgetLayout := .absent
  md : ImpArr WidgetLayout := .absent
  sm : ImpArr WidgetLayout := .absent
deriving DecidableEq, Repr

/-- `ImportableState`: the `data` object of an import document. An optional
scalar field is doubly optional: outer `Option` = present in the document at
all (`!== undefined`), inner `Option` = `null` or a string. -/
structure ImportableState where
  portfolios : ImpArr Portfolio := .absent
  activePortfolioId : Option (Option String) := none
  transactions : ImpArr Transaction := .absent
  layouts : Option ImpLayouts := none
  widgets : ImpArr WidgetInstance := .absent
  savedViews : ImpArr SavedView := .absent
  activeViewId : Option (Option String) := none
  theme : Option String := none
  watchlist : ImpArr WatchlistItem := .absent
deriving DecidableEq, Repr

/-- `importState` from the composed store: build a partial `newState` that
contains exactly the fields whose imported value is present and well-typed,
then merge it over the current state (`{ ...currentState, ...newState }`).
Each field below is the current value unless its guard admits the imported
one. -/
def importState (imported : ImportableState) (s : StoreState) : StoreState :=
  { portfolios :=
      match imported.portfolios with
      | .arr l => l
      | _ => s.portfolios,
    activePortfolioId :=
      match imported.activePortfolioId with
      | some v => v
      | none => s.activePortfolioId,
    transactions :=
      match imported.transactions with
      | .arr l => l
      | _ => s.transactions,
    layouts :=
      match imported.layouts with
      | some lf =>
        match lf.lg, lf.md, lf.sm with
        | .arr lg, .arr md, .arr sm => { lg := lg, md := md, sm := sm }
        | _, _, _ => s.layouts
      | none => s.layouts,
    widgets :=
      match imported.widgets with
      | .arr l => l
      | _ => s.widgets,
    savedViews :=
      match imported.savedViews with
      | .arr l => l
      | _ => s.savedViews,
    activeViewId :=
      match imported.activeViewId with
      | some v => v
      | none => s.activeViewId,
    theme :=
      match imported.theme with
      | some t => if t = "dark" ∨ t = "light" then t else s.theme
      | none => s.theme,
    watchlist :=
      match imported.watchlist with
      | .arr l => l
      | _ => s.watchlist }

/-- The `storeData` object that `handleImport` in `DataManagement.tsx` writes
wholesale to the persisted-storage document (after which the page reloads and
the store rehydrates from it): every absent or ill-typed field is replaced by
a default (`[]`, `null`, empty layouts, `"dark"`), not by the store's current
value. `importState` is never called on this path. (The source guards the
`layouts` members only by truthiness, not `Array.isArray`; a present
non-array member cannot be represented in the typed store state, so the
model maps that case to the default layouts as well.) -/
def handleImportStoreData (data : ImportableState) : StoreState :=
  { portfolios :=
      match data.portfolios with
      | .arr l => l
      | _ => [],
    transactions :=
      match data.transactions with
      | .arr l => l
      | _ => [],
    layouts :=
      match data.layouts with
      | some lf =>
        match lf.lg, lf.md, lf.sm with
        | .arr lg, .arr md, .arr sm => { lg := lg, md := md, sm := sm }
        | _, _, _ => { lg := [], md := [], sm := [] }
      | none => { lg := [], md := [], sm := [] },
    widgets :=
      match data.widgets with
      | .arr l => l
      | _ => [],
    savedViews :=
      match data.savedViews with
      | .arr l => l
      | _ => [],
    activePortfolioId := (data.activePortfolioId.getD none),
    activeViewId := (data.activeViewId.getD none),
    watchlist :=
      match data.watchlist with
      | .arr l => l
      | _ => [],
    theme := "dark" }

/-! ## Concrete fixtures used by witnesses and counterexamples -/

/-- An empty store (the initial slices' state). -/
def emptyStore : StoreState :=
  { portfolios := [], activePortfolioId := none, transactions := [],
    layouts := { lg := [], md := [], sm := [] }, widgets := [],
    savedViews := [], activeViewId := none, theme := "dark",
    watchlist := [] }

/-- A minimal saved view. -/
def sampleView (id : String) (isDefault : Bool) : SavedView :=
  { id := id, name := id, isDefault := isDefault, createdAt := "t0",
    updatedAt := "t0", config := none }

/-- A minimal holding. -/
def sampleHolding (id : String) : Holding :=
  { id := id, symbol := "VTI", name := "Vanguard Total", shares := 10,
    avgCostBasis := 200, purchaseDate := "2024-01-01",
    createdAt := "t0", updatedAt := "t0" }

/-- A minimal portfolio holding the given holdings. -/
def samplePortfolio (id : String) (holdings : List Holding) : Portfolio :=
  { id := id, name := "Main", currency := .USD, createdAt := "t0",
    holdings := holdings }

/-- A minimal transaction referring to a holding. -/
def sampleTx (id holdingId : String) : Transaction :=
  { id := id, holdingId := holdingId, type := .BUY, shares := 1,
    pricePerShare := 100, date := "2024-01-02" }

/-! ## C9: `setDefaultView` -/

/-- C9: after `setDefaultView(id)`, a saved view has `isDefault` true iff its
id equals the argument; with an id matching no saved view, every view ends up
with `isDefault` false. -/
theorem setDefaultView_default_iff (id : String) (s : StoreState) :
    (∀ v ∈ (setDefaultView id s).savedViews, (v.isDefault = true ↔ v.id = id)) ∧
    ((∀ v ∈ s.savedViews, v.id ≠ id) →
      ∀ v ∈ (setDefaultView id s).savedViews, v.isDefault = false) := by
  constructor
  · intro v hv
    simp only [setDefaultView, List.mem_map] at hv
    obtain ⟨w, _, rfl⟩ := hv
    simp
  · intro hnone v hv
    simp only [setDefaultView, List.mem_map] at hv
    obtain ⟨w, hw, rfl⟩ := hv
    simp [hnone w hw]

/-- Witness for C9: in a store with views `a` (default) and `b`, calling
`setDefaultView "c"` (no such view) leaves the mapped image of `a` with
`isDefault = false`. -/
theorem setDefaultView_default_iff_witness :
    ({ sampleView "a" true with isDefault := false } : SavedView).isDefault
      = false :=
  (setDefaultView_default_iff "c"
      { emptyStore with savedViews := [sampleView "a" true, sampleView "b" false] }).2
    (by decide)
    { sampleView "a" true with isDefault := false }
    (by decide)

/-! ## C10: `addHolding` with no matching active portfolio -/

/-- C10: when `activePortfolioId` is `null` or matches no existing portfolio,
`addHolding` still returns the freshly generated id but leaves the whole
store state — in particular the portfolios list and every portfolio's
holdings — unchanged. -/
theorem addHolding_inactive_noop (freshId now : String) (data : HoldingData)
    (s : StoreState)
    (h : s.activePortfolioId = none ∨
         ∀ p ∈ s.portfolios, some p.id ≠ s.activePortfolioId) :
    (addHolding freshId now data s).1 = freshId ∧
    (addHolding freshId now data s).2 = s := by
  refine ⟨rfl, ?_⟩
  have hmap : (s.portfolios.map fun p =>
      if some p.id = s.activePortfolioId then
        { p with holdings := p.holdings ++
            [{ id := freshId, symbol := data.symbol, name := data.name,
               shares := data.shares, avgCostBasis := data.avgCostBasis,
               purchaseDate := data.purchaseDate, notes := data.notes,
               createdAt := now, updatedAt := now }] }
      else p) = s.portfolios := by
    conv_rhs => rw [← List.map_id s.portfolios]
    apply List.map_congr_left
    intro p hp
    have hne : ¬ some p.id = s.activePortfolioId := by
      rcases h with h | h
      · rw [h]; simp
      · exact h p hp
    simp [hne]
  simp only [addHolding, hmap]

/-- Witness for C10: a store with one portfolio `p1` but active id `zzz`
keeps its state unchanged, and the fresh id is returned. -/
theorem addHolding_inactive_noop_witness :
    (addHolding "h-9" "t1"
        { symbol := "VTI", name := "Vanguard Total", shares := 5,
          avgCostBasis := 100, purchaseDate := "2024-02-02" }
        { emptyStore with portfolios := [samplePortfolio "p1" []],
                          activePortfolioId := some "zzz" }).1 = "h-9" ∧
    (addHolding "h-9" "t1"
        { symbol := "VTI", name := "Vanguard Total", shares := 5,
          avgCostBasis := 100, purchaseDate := "2024-02-02" }
        { emptyStore with portfolios := [samplePortfolio "p1" []],
                          activePortfolioId := some "zzz" }).2 =
      { emptyStore with portfolios := [samplePortfolio "p1" []],
                        activePortfolioId := some "zzz" } :=
  addHolding_inactive_noop "h-9" "t1"
    { symbol := "VTI", name := "Vanguard Total", shares := 5,
      avgCostBasis := 100, purchaseDate := "2024-02-02" }
    { emptyStore with portfolios := [samplePortfolio "p1" []],
                      activePortfolioId := some "zzz" }
    (Or.inr (by decide))

/-! ## C4: `deleteHolding` cascade -/

/-- C4: `deleteHolding(H)` — in its one `set` call — removes the holding with
id `H` from the active portfolio, removes exactly the transactions whose
`holdingId` is `H`, rewrites the active portfolio's holdings to the filtered
list, and leaves every positionally corresponding non-active portfolio (and
every other store field) unchanged. -/
theorem deleteHolding_cascade (hid : String) (s : StoreState) :
    (∀ t, t ∈ (deleteHolding hid s).transactions ↔
      t ∈ s.transactions ∧ t.holdingId ≠ hid) ∧
    (deleteHolding hid s).portfolios.length = s.portfolios.length ∧
    (∀ (idx : Nat) (h1 : idx < s.portfolios.length)
        (h2 : idx < (deleteHolding hid s).portfolios.length),
      (some (s.portfolios.get ⟨idx, h1⟩).id ≠ s.activePortfolioId →
        (deleteHolding hid s).portfolios.get ⟨idx, h2⟩ =
          s.portfolios.get ⟨idx, h1⟩) ∧
      (some (s.portfolios.get ⟨idx, h1⟩).id = s.activePortfolioId →
        (deleteHolding hid s).portfolios.get ⟨idx, h2⟩ =
          { s.portfolios.get ⟨idx, h1⟩ with
            holdings := (s.portfolios.get ⟨idx, h1⟩).holdings.filter
              fun h => h.id ≠ hid })) ∧
    (∀ p ∈ (deleteHolding hid s).portfolios,
      some p.id = s.activePortfolioId → ∀ h ∈ p.holdings, h.id ≠ hid) ∧
    (deleteHolding hid s).activePortfolioId = s.activePortfolioId ∧
    (deleteHolding hid s).layouts = s.layouts ∧
    (deleteHolding hid s).widgets = s.widgets ∧
    (deleteHolding hid s).savedViews = s.savedViews ∧
    (deleteHolding hid s).activeViewId = s.activeViewId ∧
    (deleteHolding hid s).watchlist = s.watchlist := by
  refine ⟨?_, ?_, ?_, ?_, rfl, rfl, rfl, rfl, rfl, rfl⟩
  · intro t
    simp [deleteHolding, List.mem_filter]
  · simp [deleteHolding]
  · intro idx h1 h2
    constructor
    · intro hne
      simp only [List.get_eq_getElem] at hne
      simp only [deleteHolding, List.get_eq_getElem, List.getElem_map]
      rw [if_neg hne]
    · intro heq
      simp only [List.get_eq_getElem] at heq
      simp only [deleteHolding, List.get_eq_getElem, List.getElem_map]
      rw [if_pos heq]
  · intro p hp hact h hh
    simp only [deleteHolding, List.mem_map] at hp
    obtain ⟨q, hq, hqp⟩ := hp
    by_cases hqa : some q.id = s.activePortfolioId
    · rw [if_pos hqa] at hqp
      subst hqp
      simp only [List.mem_filter, decide_eq_true_eq] at hh
      exact hh.2
    · rw [if_neg hqa] at hqp
      subst hqp
      exact absurd hact hqa

/-- Witness for C4: deleting holding `h1` from a two-portfolio store removes
it and the transactions referencing it, and keeps the non-active portfolio
and the unrelated transaction. -/
theorem deleteHolding_cascade_witness :
    (sampleTx "t2" "h2" ∈ (deleteHolding "h1"
        { emptyStore with
          portfolios := [samplePortfolio "p1" [sampleHolding "h1", sampleHolding "h2"],
                         samplePortfolio "p2" [sampleHolding "h1"]],
          activePortfolioId := some "p1",
          transactions := [sampleTx "t1" "h1", sampleTx "t2" "h2"] }).transactions) ∧
    ¬ (sampleTx "t1" "h1" ∈ (deleteHolding "h1"
        { emptyStore with
          portfolios := [samplePortfolio "p1" [sampleHolding "h1", sampleHolding "h2"],
                         samplePortfolio "p2" [sampleHolding "h1"]],
          activePortfolioId := some "p1",
          transactions := [sampleTx "t1" "h1", sampleTx "t2" "h2"] }).transactions) := by
  constructor
  · exact ((deleteHolding_cascade "h1" _).1 (sampleTx "t2" "h2")).mpr
      (by decide)
  · intro hmem
    have := ((deleteHolding_cascade "h1"
        { emptyStore with
          portfolios := [samplePortfolio "p1" [sampleHolding "h1", sampleHolding "h2"],
                         samplePortfolio "p2" [sampleHolding "h1"]],
          activePortfolioId := some "p1",
          transactions := [sampleTx "t1" "h1", sampleTx "t2" "h2"] }).1
      (sampleTx "t1" "h1")).mp hmem
    exact this.2 (by decide)

/-! ## C7: `deleteView` of the default view -/

/-- An index-aware map whose function fixes every element is the identity. -/
theorem mapIdx_congr_id {α : Type} (l : List α) (f : Nat → α → α)
    (hf : ∀ i v, f i v = v) : l.mapIdx f = l := by
  induction l generalizing f with
  | nil => rfl
  | cons a as ih =>
    rw [List.mapIdx_cons, hf]
    exact congrArg (a :: ·) (ih _ fun i v => hf (i + 1) v)

/-- C7: when the view with id `V` is the (unique) default and at least one
other view remains, `deleteView V` keeps the remaining views in filtered
order, promotes the first of them to default, and exactly one remaining view
is default. -/
theorem deleteView_promotes_unique_default (id : String) (s : StoreState)
    (hdef : ∀ v ∈ s.savedViews, (v.isDefault = true ↔ v.id = id))
    (hrem : s.savedViews.filter (fun v => v.id ≠ id) ≠ []) :
    ∃ w t, s.savedViews.filter (fun v => v.id ≠ id) = w :: t ∧
      (deleteView id s).savedViews = { w with isDefault := true } :: t ∧
      (∀ v ∈ t, v.isDefault = false) ∧
      ((deleteView id s).savedViews.countP fun v => v.isDefault) = 1 := by
  have hfall : ∀ v ∈ s.savedViews.filter (fun v => v.id ≠ id),
      v.isDefault = false := by
    intro v hv
    rw [List.mem_filter] at hv
    have hne : v.id ≠ id := by simpa using hv.2
    cases hb : v.isDefault
    · rfl
    · exact absurd ((hdef v hv.1).mp hb) hne
  obtain ⟨w, t, hwt⟩ : ∃ w t,
      s.savedViews.filter (fun v => v.id ≠ id) = w :: t := by
    cases h : s.savedViews.filter (fun v => v.id ≠ id) with
    | nil => exact absurd h hrem
    | cons w t => exact ⟨w, t, rfl⟩
  have htall : ∀ v ∈ t, v.isDefault = false := by
    intro v hv
    exact hfall v (hwt ▸ List.mem_cons_of_mem w hv)
  have hviews : (deleteView id s).savedViews =
      { w with isDefault := true } :: t := by
    simp only [deleteView, hwt]
    have hall : (w :: t).all (fun v => !v.isDefault) = true := by
      rw [List.all_eq_true]
      intro v hv
      have : v.isDefault = false :=
        hfall v (hwt ▸ hv)
      simp [this]
    rw [hall]
    simp only [List.isEmpty_cons, Bool.not_false, Bool.and_self, if_true,
      List.mapIdx_cons, if_pos rfl]
    exact congrArg (_ :: ·) (mapIdx_congr_id t _ fun i v => by simp)
  refine ⟨w, t, hwt, hviews, htall, ?_⟩
  rw [hviews, List.countP_cons]
  have ht0 : t.countP (fun v => v.isDefault) = 0 := by
    rw [List.countP_eq_zero]
    intro v hv
    simp [htall v hv]
  simp [ht0]

/-- Witness for C7: deleting default view `a` from `[a (default), b, c]`
promotes `b` (the first remaining view) and leaves exactly one default. -/
theorem deleteView_promotes_unique_default_witness :
    (deleteView "a"
        { emptyStore with
          savedViews := [sampleView "a" true, sampleView "b" false,
                         sampleView "c" false] }).savedViews =
      [{ sampleView "b" false with isDefault := true },
       sampleView "c" false] := by
  obtain ⟨w, t, hwt, hviews, -, -⟩ :=
    deleteView_promotes_unique_default "a"
      { emptyStore with
        savedViews := [sampleView "a" true, sampleView "b" false,
                       sampleView "c" false] }
      (by decide) (by decide)
  have hw : w = sampleView "b" false ∧ t = [sampleView "c" false] := by
    have : [sampleView "b" false, sampleView "c" false] = w :: t := by
      refine Eq.trans ?_ hwt
      decide
    cases this
    exact ⟨rfl, rfl⟩
  rw [hviews, hw.1, hw.2]

/-! ## C8: `loadView` on invalid input -/

/-- The view's config carries an `lg` breakpoint array. -/
def viewHasLg (v : SavedView) : Prop :=
  ∃ cfg lf l, v.config = some cfg ∧ cfg.layouts = some lf ∧ lf.lg = some l

/-- The view's config carries an `md` breakpoint array. -/
def viewHasMd (v : SavedView) : Prop :=
  ∃ cfg lf l, v.config = some cfg ∧ cfg.layouts = some lf ∧ lf.md = some l

/-- The view's config carries an `sm` breakpoint array. -/
def viewHasSm (v : SavedView) : Prop :=
  ∃ cfg lf l, v.config = some cfg ∧ cfg.layouts = some lf ∧ lf.sm = some l

/-- The view's config carries a `widgets` field that is an array. -/
def viewWidgetsIsArray (v : SavedView) : Prop :=
  ∃ cfg ws, v.config = some cfg ∧ cfg.widgets = some (WidgetsField.arr ws)

/-- C8: `loadView(id)` is a complete no-op — the whole state, in particular
layouts, widgets and `activeViewId`, is unchanged — when no saved view
matches `id`, or when the matched view misses one of the `lg`/`md`/`sm`
arrays, or when its `widgets` field is not an array. -/
theorem loadView_invalid_noop (id : String) (s : StoreState)
    (h : s.savedViews.find? (fun v => v.id = id) = none ∨
         ∃ v, s.savedViews.find? (fun v => v.id = id) = some v ∧
           (¬viewHasLg v ∨ ¬viewHasMd v ∨ ¬viewHasSm v ∨
            ¬viewWidgetsIsArray v)) :
    loadView id s = s := by
  rcases h with h | ⟨v, hv, hbad⟩
  · simp only [loadView, h]
  · rcases hc : v.config with _ | cfg
    · simp [loadView, hv, hc]
    rcases hl : cfg.layouts with _ | lf
    · simp [loadView, hv, hc, hl]
    rcases hw : cfg.widgets with _ | (ws | _)
    · simp [loadView, hv, hc, hl, hw]
    case some.some.some.arr =>
      rcases hlg : lf.lg with _ | lg
      · simp [loadView, hv, hc, hl, hw, hlg]
      rcases hmd : lf.md with _ | md
      · simp [loadView, hv, hc, hl, hw, hlg, hmd]
      rcases hsm : lf.sm with _ | sm
      · simp [loadView, hv, hc, hl, hw, hlg, hmd, hsm]
      exfalso
      rcases hbad with hb | hb | hb | hb
      · exact hb ⟨cfg, lf, lg, hc, hl, hlg⟩
      · exact hb ⟨cfg, lf, md, hc, hl, hmd⟩
      · exact hb ⟨cfg, lf, sm, hc, hl, hsm⟩
      · exact hb ⟨cfg, ws, hc, hw⟩
    case some.some.some.notArray =>
      simp [loadView, hv, hc, hl, hw]

/-- A saved view whose config misses the `md` breakpoint array. -/
def viewMissingMd : SavedView :=
  { sampleView "a" true with
    config := some { layouts := some { lg := some [], md := none,
                                       sm := some [] },
                     widgets := some (.arr []) } }

/-- A store containing only `viewMissingMd`. -/
def storeWithBadView : StoreState :=
  { emptyStore with savedViews := [viewMissingMd], activeViewId := some "z" }

/-- Witness for C8: a store whose view `a` has a config missing the `md`
array is unchanged by `loadView "a"`. -/
theorem loadView_invalid_noop_witness :
    loadView "a" storeWithBadView = storeWithBadView :=
  loadView_invalid_noop "a" storeWithBadView
    (Or.inr ⟨viewMissingMd, by decide, Or.inr (Or.inl (by
      rintro ⟨cfg, lf, l, hc, hl, hm⟩
      have hc2 : some ({ layouts := some { lg := some [], md := none,
                                           sm := some [] },
                         widgets := some (.arr []) } : ViewConfig)
          = some cfg := hc
      cases hc2
      have hl2 : some ({ lg := some [], md := none,
                         sm := some [] } : LayoutsField) = some lf := hl
      cases hl2
      exact Option.noConfusion hm))⟩)

/-! ## C2: `createPortfolio` validation -/

/-- The character set the spec claims for portfolio names: letters, digits,
the space character, underscore and hyphen (`[A-Za-z0-9 _-]`). Stated from
the spec's words, to be compared with the source's class `[a-zA-Z0-9\s\-_]`
(`nameCharOk`), whose `\s` admits every JS whitespace character. -/
def claimedNameCharOk (c : Char) : Bool :=
  ('a' ≤ c && c ≤ 'z') || ('A' ≤ c && c ≤ 'Z') || ('0' ≤ c && c ≤ '9') ||
  c = ' ' || c = '_' || c = '-'

/-- Counterexample to C2: the name `"a\tb"` trims to itself, is short, and
contains a tab — a character outside the claimed set `[A-Za-z0-9 _-]` — so
the claim requires `createPortfolio` to throw; but the source regex's `\s`
accepts the tab and the call succeeds, appending the portfolio. -/
theorem createPortfolio_claim_counterexample :
    createPortfolio "p-1" "t0" "a\tb" Currency.USD emptyStore =
      .ok ("p-1",
        { emptyStore with
          portfolios := [{ id := "p-1", name := "a\tb", currency := .USD,
                           createdAt := "t0", holdings := [] }],
          activePortfolioId := some "p-1" }) ∧
    '\t' ∈ (jsTrim "a\tb").data ∧
    claimedNameCharOk '\t' = false ∧
    (jsTrim "a\tb").data ≠ [] ∧
    ¬ (jsTrim "a\tb").data.length > 50 := by
  refine ⟨rfl, ?_, ?_, ?_, ?_⟩ <;> decide

/-- C2 (amended: the admissible characters are the regex class
`[a-zA-Z0-9\s-_]`, whose `\s` matches any JS whitespace, not only the space
character): `createPortfolio(n)` throws iff `trim(n)` is empty, longer than
50 characters, or contains a character outside the class; otherwise it
returns the fresh id and appends a portfolio named `trim(n)` (making it
active when no portfolio was). -/
theorem createPortfolio_validation (freshId now name : String) (c : Currency)
    (s : StoreState) :
    ((∃ e, createPortfolio freshId now name c s = .error e) ↔
      ((jsTrim name).data = [] ∨ (jsTrim name).data.length > 50 ∨
        ∃ ch ∈ (jsTrim name).data, nameCharOk ch = false)) ∧
    (∀ r, createPortfolio freshId now name c s = .ok r →
      r = (freshId,
        { s with
          portfolios := s.portfolios ++
            [{ id := freshId, name := jsTrim name, currency := c,
               createdAt := now, holdings := [] }],
          activePortfolioId := some (s.activePortfolioId.getD freshId) })) := by
  have hdef : createPortfolio freshId now name c s =
      if (jsTrim name).data.isEmpty = true then
        .error "Portfolio name cannot be empty"
      else if (jsTrim name).data.length > MAX_PORTFOLIO_NAME_LENGTH then
        .error "Portfolio name cannot exceed 50 characters"
      else if (!nameRegexTest (jsTrim name)) = true then
        .error
          "Portfolio name can only contain letters, numbers, spaces, hyphens, and underscores"
      else
        .ok (freshId,
          { s with
            portfolios := s.portfolios ++
              [{ id := freshId, name := jsTrim name, currency := c,
                 createdAt := now, holdings := [] }],
            activePortfolioId := some (s.activePortfolioId.getD freshId) }) :=
    rfl
  constructor
  · by_cases h1 : (jsTrim name).data.isEmpty = true
    · have ht : (jsTrim name).data = [] := by simpa using h1
      rw [hdef, if_pos h1]
      exact iff_of_true ⟨_, rfl⟩ (Or.inl ht)
    · have ht : ¬ (jsTrim name).data = [] := by simpa using h1
      by_cases h2 : (jsTrim name).data.length > MAX_PORTFOLIO_NAME_LENGTH
      · rw [hdef, if_neg h1, if_pos h2]
        exact iff_of_true ⟨_, rfl⟩ (Or.inr (Or.inl h2))
      · by_cases h3 : nameRegexTest (jsTrim name) = true
        · have hall : ∀ ch ∈ (jsTrim name).data, nameCharOk ch = true := by
            have h4 := h3
            unfold nameRegexTest at h4
            rw [Bool.and_eq_true, List.all_eq_true] at h4
            exact h4.2
          have h3b : ¬ (!nameRegexTest (jsTrim name)) = true := by
            simp [h3]
          rw [hdef, if_neg h1, if_neg h2, if_neg h3b]
          refine iff_of_false ?_ ?_
          · rintro ⟨e, he⟩
            exact Except.noConfusion he
          · rintro (h | h | ⟨ch, hch, hb⟩)
            · exact ht h
            · exact h2 h
            · rw [hall ch hch] at hb
              exact Bool.noConfusion hb
        · have h3b : (!nameRegexTest (jsTrim name)) = true := by
            simp only [Bool.not_eq_true] at h3 ⊢
            simpa using h3
          have hbad : ∃ ch ∈ (jsTrim name).data, nameCharOk ch = false := by
            have h4 : ¬ ((jsTrim name).data.all nameCharOk = true) := by
              intro hall
              apply h3
              unfold nameRegexTest
              rw [Bool.and_eq_true]
              exact ⟨by simpa using h1, hall⟩
            rw [List.all_eq_true] at h4
            push_neg at h4
            obtain ⟨ch, hch, hne⟩ := h4
            exact ⟨ch, hch, by simpa using hne⟩
          rw [hdef, if_neg h1, if_neg h2, if_pos h3b]
          exact iff_of_true ⟨_, rfl⟩ (Or.inr (Or.inr hbad))
  · intro r hr
    rw [hdef] at hr
    split at hr
    · exact Except.noConfusion hr
    · split at hr
      · exact Except.noConfusion hr
      · split at hr
        · exact Except.noConfusion hr
        · injection hr with h
          exact h.symm

/-- Witness for C2 (amended): creating `"My Portfolio"` in an empty store
returns the fresh id and the one-portfolio state. -/
theorem createPortfolio_validation_witness :
    (("p-1",
      { emptyStore with
        portfolios := [{ id := "p-1", name := "My Portfolio",
                         currency := .USD, createdAt := "t0",
                         holdings := [] }],
        activePortfolioId := some "p-1" }) : String × StoreState) =
    ("p-1",
      { emptyStore with
        portfolios := [{ id := "p-1", name := jsTrim "My Portfolio",
                         currency := .USD, createdAt := "t0",
                         holdings := [] }],
        activePortfolioId :=
          some (emptyStore.activePortfolioId.getD "p-1") }) :=
  (createPortfolio_validation "p-1" "t0" "My Portfolio" Currency.USD
      emptyStore).2
    ("p-1",
      { emptyStore with
        portfolios := [{ id := "p-1", name := "My Portfolio",
                         currency := .USD, createdAt := "t0",
                         holdings := [] }],
        activePortfolioId := some "p-1" })
    (by rfl)

/-! ## C1: grid layout reconciliation -/

/-- One step of `areLayoutsEqual`: on two nonempty arrays it is the head
comparison conjoined with the comparison of the tails. -/
theorem areLayoutsEqual_cons (x y : WidgetLayout) (xs ys : List WidgetLayout) :
    areLayoutsEqual (x :: xs) (y :: ys) =
      (layoutEntryEq x y && areLayoutsEqual xs ys) := by
  unfold areLayoutsEqual
  by_cases h : xs.length = ys.length
  · simp [h]
  · have h2 : (x :: xs).length ≠ (y :: ys).length := by
      simp [h]
    simp [h, h2]

/-- `StructurallyEqual` on two nonempty arrays decomposes into head fields
and tails. -/
theorem structurallyEqual_cons (x y : WidgetLayout)
    (xs ys : List WidgetLayout) :
    StructurallyEqual (x :: xs) (y :: ys) ↔
      ((x.i = y.i ∧ x.x = y.x ∧ x.y = y.y ∧ x.w = y.w ∧ x.h = y.h) ∧
        StructurallyEqual xs ys) := by
  constructor
  · rintro ⟨hlen, hfields⟩
    refine ⟨hfields 0 (by simp) (by simp), ?_, ?_⟩
    · simpa using hlen
    · intro idx ha hb
      exact hfields (idx + 1) (by simpa using ha) (by simpa using hb)
  · rintro ⟨hxy, hlen, hfields⟩
    refine ⟨by simpa using hlen, ?_⟩
    intro idx ha hb
    match idx with
    | 0 => exact hxy
    | idx + 1 =>
      exact hfields idx (by simpa using ha) (by simpa using hb)

/-- `areLayoutsEqual` decides exactly the claim's structural equality. -/
theorem areLayoutsEqual_iff (a b : List WidgetLayout) :
    areLayoutsEqual a b = true ↔ StructurallyEqual a b := by
  induction a generalizing b with
  | nil =>
    cases b with
    | nil =>
      constructor
      · rintro -
        exact ⟨rfl, fun idx ha _ => absurd ha (by simp)⟩
      · rintro -
        decide
    | cons y ys =>
      constructor
      · intro h
        exact absurd h (by simp [areLayoutsEqual])
      · rintro ⟨hlen, -⟩
        exact absurd hlen (by simp)
  | cons x xs ih =>
    cases b with
    | nil =>
      constructor
      · intro h
        exact absurd h (by simp [areLayoutsEqual])
      · rintro ⟨hlen, -⟩
        exact absurd hlen (by simp)
    | cons y ys =>
      rw [areLayoutsEqual_cons, structurallyEqual_cons, Bool.and_eq_true,
        ih ys]
      constructor
      · rintro ⟨h1, h2⟩
        refine ⟨?_, h2⟩
        unfold layoutEntryEq at h1
        simp only [Bool.and_eq_true, decide_eq_true_eq] at h1
        exact ⟨h1.1.1.1.1, h1.1.1.1.2, h1.1.1.2, h1.1.2, h1.2⟩
      · rintro ⟨⟨hi, hx, hy, hw, hh⟩, h2⟩
        refine ⟨?_, h2⟩
        unfold layoutEntryEq
        simp [hi, hx, hy, hw, hh]

/-- C1: the reconciliation handler converts the emitted per-breakpoint
arrays to the canonical shape and commits via `updateLayouts` — replacing the
stored layouts with the converted ones — exactly when at least one
breakpoint's converted array is not structurally equal (same length, same
`i`/`x`/`y`/`w`/`h` at every position) to the stored one. -/
theorem handleLayoutChange_commits_iff_changed (allLayouts : EmittedLayouts)
    (s : StoreState) :
    (handleLayoutChange allLayouts s.layouts =
        some (convertedLayouts allLayouts s.layouts) ∨
      handleLayoutChange allLayouts s.layouts = none) ∧
    ((∃ l, handleLayoutChange allLayouts s.layouts = some l) ↔
      ¬(StructurallyEqual (convertedLayouts allLayouts s.layouts).lg
          s.layouts.lg ∧
        StructurallyEqual (convertedLayouts allLayouts s.layouts).md
          s.layouts.md ∧
        StructurallyEqual (convertedLayouts allLayouts s.layouts).sm
          s.layouts.sm)) ∧
    (∀ l, handleLayoutChange allLayouts s.layouts = some l →
      updateLayouts l s =
        { s with layouts := convertedLayouts allLayouts s.layouts }) := by
  have hdef : handleLayoutChange allLayouts s.layouts =
      if (!areLayoutsEqual (convertedLayouts allLayouts s.layouts).lg
            s.layouts.lg ||
          !areLayoutsEqual (convertedLayouts allLayouts s.layouts).md
            s.layouts.md ||
          !areLayoutsEqual (convertedLayouts allLayouts s.layouts).sm
            s.layouts.sm) = true then
        some (convertedLayouts allLayouts s.layouts)
      else none := rfl
  refine ⟨?_, ?_, ?_⟩
  · rw [hdef]
    split
    · exact Or.inl rfl
    · exact Or.inr rfl
  · rw [hdef]
    constructor
    · intro hl
      split at hl
      · rename_i hcond
        simp only [Bool.or_eq_true, Bool.not_eq_true] at hcond
        rintro ⟨hlg, hmd, hsm⟩
        rcases hcond with (h | h) | h
        · rw [(areLayoutsEqual_iff _ _).mpr hlg] at h
          exact Bool.noConfusion h
        · rw [(areLayoutsEqual_iff _ _).mpr hmd] at h
          exact Bool.noConfusion h
        · rw [(areLayoutsEqual_iff _ _).mpr hsm] at h
          exact Bool.noConfusion h
      · obtain ⟨l, hl⟩ := hl
        exact Option.noConfusion hl
    · intro hne
      split
      · exact ⟨_, rfl⟩
      · rename_i hcond
        exfalso
        apply hne
        have ha : areLayoutsEqual (convertedLayouts allLayouts s.layouts).lg
            s.layouts.lg = true := by
          by_contra hfalse
          rw [Bool.not_eq_true] at hfalse
          exact hcond (by simp [hfalse])
        have hb : areLayoutsEqual (convertedLayouts allLayouts s.layouts).md
            s.layouts.md = true := by
          by_contra hfalse
          rw [Bool.not_eq_true] at hfalse
          exact hcond (by simp [hfalse])
        have hc : areLayoutsEqual (convertedLayouts allLayouts s.layouts).sm
            s.layouts.sm = true := by
          by_contra hfalse
          rw [Bool.not_eq_true] at hfalse
          exact hcond (by simp [hfalse])
        exact ⟨(areLayoutsEqual_iff _ _).mp ha,
          (areLayoutsEqual_iff _ _).mp hb,
          (areLayoutsEqual_iff _ _).mp hc⟩
  · intro l hl
    rw [hdef] at hl
    split at hl
    · cases hl
      rfl
    · exact Option.noConfusion hl

/-- A layout-change event moving widget `w1` from x=1 to x=0 on `lg`. -/
def gridEmittedFixture : EmittedLayouts :=
  { lg := some [{ i := "w1", x := 0, y := 0, w := 4, h := 2 }] }

/-- A store whose `lg` breakpoint has `w1` at x=1. -/
def gridStoreFixture : StoreState :=
  { emptyStore with
    layouts := { lg := [{ i := "w1", x := 1, y := 0, w := 4, h := 2 }],
                 md := [], sm := [] } }

/-- Witness for C1: the moved widget makes `lg` structurally unequal, so the
handler commits the converted layouts into the store. -/
theorem handleLayoutChange_commits_iff_changed_witness :
    updateLayouts (convertedLayouts gridEmittedFixture gridStoreFixture.layouts)
        gridStoreFixture =
      { gridStoreFixture with
        layouts := convertedLayouts gridEmittedFixture
          gridStoreFixture.layouts } :=
  (handleLayoutChange_commits_iff_changed gridEmittedFixture
      gridStoreFixture).2.2
    (convertedLayouts gridEmittedFixture gridStoreFixture.layouts)
    (by decide)

/-! ## C3: retry policy of the quote fetch -/

/-- A 429 or ≥500 status classifies as a retryable error. -/
theorem fromResponse_retryable_of_transient (status : Nat)
    (h : status = 429 ∨ 500 ≤ status) :
    (ApiErrorFromResponse status none).retryable = true := by
  unfold ApiErrorFromResponse
  rcases h with h | h
  · simp [h]
  · have h429 : status ≠ 429 := by omega
    have h404 : status ≠ 404 := by omega
    simp [h429, h404, h]

/-- A 4xx status other than 429 classifies as a non-retryable error. -/
theorem fromResponse_nonretryable_4xx (status : Nat) (h1 : 400 ≤ status)
    (h2 : status < 500) (h3 : status ≠ 429) :
    (ApiErrorFromResponse status none).retryable = false := by
  unfold ApiErrorFromResponse
  by_cases h4 : status = 404
  · simp [h3, h4]
  · have h5 : ¬ 500 ≤ status := by omega
    simp [h3, h4, h5, h1]

/-- Unfolding `retryLoop` when the status is transient and retries remain:
one more fetch, one backoff delay, then the rest of the loop. -/
theorem retryLoop_retry (responses : Nat → Nat) (maxRetries attempt : Nat)
    (hst : responses attempt = 429 ∨ 500 ≤ responses attempt)
    (hlt : attempt < maxRetries) :
    retryLoop responses maxRetries attempt =
      { result := (retryLoop responses maxRetries (attempt + 1)).result,
        fetchCount :=
          (retryLoop responses maxRetries (attempt + 1)).fetchCount + 1,
        delays := BASE_DELAY_MS * 2 ^ attempt ::
          (retryLoop responses maxRetries (attempt + 1)).delays } := by
  rw [retryLoop]
  rw [if_pos (by omega : responses attempt = 429 ∨ responses attempt ≥ 500)]
  rw [if_pos ⟨fromResponse_retryable_of_transient _ hst, hlt⟩]

/-- Unfolding `retryLoop` when the status is transient but no retries remain:
the classified error is thrown after this single fetch. -/
theorem retryLoop_exhausted (responses : Nat → Nat) (maxRetries attempt : Nat)
    (hst : responses attempt = 429 ∨ 500 ≤ responses attempt)
    (hge : ¬ attempt < maxRetries) :
    retryLoop responses maxRetries attempt =
      { result := .error (ApiErrorFromResponse (responses attempt) none),
        fetchCount := 1, delays := [] } := by
  rw [retryLoop]
  rw [if_pos (by omega : responses attempt = 429 ∨ responses attempt ≥ 500)]
  rw [if_neg (by rintro ⟨-, h⟩; exact hge h)]

/-- Unfolding `retryLoop` on a non-transient status: the response is
returned from this single fetch. -/
theorem retryLoop_pass (responses : Nat → Nat) (maxRetries attempt : Nat)
    (hst : ¬ (responses attempt = 429 ∨ 500 ≤ responses attempt)) :
    retryLoop responses maxRetries attempt =
      { result := .ok (responses attempt), fetchCount := 1, delays := [] } := by
  rw [retryLoop]
  rw [if_neg (by omega : ¬ (responses attempt = 429 ∨ responses attempt ≥ 500))]

/-- C3: with `MAX_RETRIES = 3`, (a) an endpoint answering 429/≥500 on every
attempt is fetched exactly 4 times, with the exponential backoff delays
1000, 2000, 4000 ms slept in between, and the call rejects with the error
classified from the last response; (b) a 4xx status other than 429 on the
first attempt is never retried: exactly one fetch, no delays, and the call
rejects immediately with a classified non-retryable error. -/
theorem fetchQuotes_retry_policy (responses : Nat → Nat) :
    ((∀ i, i ≤ MAX_RETRIES → responses i = 429 ∨ 500 ≤ responses i) →
      fetchQuotesRun responses =
        { result := .error (ApiErrorFromResponse (responses MAX_RETRIES) none),
          fetchCount := 4,
          delays := [1000, 2000, 4000] }) ∧
    (400 ≤ responses 0 → responses 0 < 500 → responses 0 ≠ 429 →
      fetchQuotesRun responses =
        { result := .error (ApiErrorFromResponse (responses 0) none),
          fetchCount := 1, delays := [] } ∧
      (ApiErrorFromResponse (responses 0) none).retryable = false) := by
  constructor
  · intro h
    have e3 := retryLoop_exhausted responses 3 3 (h 3 (by decide)) (by omega)
    have e2 := retryLoop_retry responses 3 2 (h 2 (by decide)) (by omega)
    have e1 := retryLoop_retry responses 3 1 (h 1 (by decide)) (by omega)
    have e0 := retryLoop_retry responses 3 0 (h 0 (by decide)) (by omega)
    rw [e3] at e2
    rw [e2] at e1
    rw [e1] at e0
    have hrun : fetchWithRetry responses MAX_RETRIES =
        { result := .error (ApiErrorFromResponse (responses 3) none),
          fetchCount := 4,
          delays := [1000, 2000, 4000] } := by
      unfold fetchWithRetry MAX_RETRIES
      rw [e0]
      norm_num [BASE_DELAY_MS]
    unfold fetchQuotesRun
    rw [hrun]
    rfl
  · intro h1 h2 h3
    have e0 := retryLoop_pass responses 3 0 (by omega)
    have hrun : fetchWithRetry responses MAX_RETRIES =
        { result := .ok (responses 0), fetchCount := 1, delays := [] } := by
      unfold fetchWithRetry MAX_RETRIES
      rw [e0]
    have hok : responseOk (responses 0) = false := by
      unfold responseOk
      have : ¬ responses 0 < 300 := by omega
      simp [this]
    constructor
    · unfold fetchQuotesRun
      rw [hrun]
      simp [hok]
    · exact fromResponse_nonretryable_4xx _ h1 h2 h3

/-- Witness for C3: an endpoint that always answers 500 is fetched 4 times
with delays 1000/2000/4000 and rejects; one answering 404 fetches once and
rejects with a non-retryable error. -/
theorem fetchQuotes_retry_policy_witness :
    fetchQuotesRun (fun _ => 500) =
      { result := .error (ApiErrorFromResponse 500 none),
        fetchCount := 4, delays := [1000, 2000, 4000] } ∧
    fetchQuotesRun (fun _ => 404) =
      { result := .error (ApiErrorFromResponse 404 none),
        fetchCount := 1, delays := [] } ∧
    (ApiErrorFromResponse 404 none).retryable = false := by
  refine ⟨(fetchQuotes_retry_policy (fun _ => 500)).1
      (fun i _ => Or.inr (by omega)), ?_, ?_⟩
  · exact ((fetchQuotes_retry_policy (fun _ => 404)).2
      (by omega) (by omega) (by omega)).1
  · exact ((fetchQuotes_retry_policy (fun _ => 404)).2
      (by omega) (by omega) (by omega)).2

/-! ## C5: the quote request/cache key -/

/-- The JS string order is total. -/
theorem jsStrLeData_total : ∀ as bs : List Char,
    jsStrLeData as bs = true ∨ jsStrLeData bs as = true := by
  intro as
  induction as with
  | nil => intro bs; exact Or.inl rfl
  | cons a as ih =>
    intro bs
    cases bs with
    | nil => exact Or.inr rfl
    | cons b bs =>
      rcases lt_trichotomy a b with h | h | h
      · left
        unfold jsStrLeData
        rw [if_pos h]
      · subst h
        rcases ih bs with h2 | h2
        · left
          unfold jsStrLeData
          rw [if_neg (lt_irrefl a), if_neg (lt_irrefl a)]
          exact h2
        · right
          unfold jsStrLeData
          rw [if_neg (lt_irrefl a), if_neg (lt_irrefl a)]
          exact h2
      · right
        unfold jsStrLeData
        rw [if_pos h]

/-- The JS string order is transitive. -/
theorem jsStrLeData_trans : ∀ as bs cs : List Char,
    jsStrLeData as bs = true → jsStrLeData bs cs = true →
    jsStrLeData as cs = true := by
  intro as
  induction as with
  | nil => intro bs cs _ _; exact rfl
  | cons a as ih =>
    intro bs cs h1 h2
    cases bs with
    | nil => exact absurd h1 (by simp [jsStrLeData])
    | cons b bs =>
      cases cs with
      | nil => exact absurd h2 (by simp [jsStrLeData])
      | cons c cs =>
        unfold jsStrLeData at h1 h2 ⊢
        rcases lt_trichotomy a b with hab | hab | hab
        · rcases lt_trichotomy b c with hbc | hbc | hbc
          · rw [if_pos (hab.trans hbc)]
          · subst hbc
            rw [if_pos hab]
          · rw [if_pos hbc, if_neg (lt_asymm hbc)] at h2
            exact absurd h2 Bool.noConfusion
        · subst hab
          rcases lt_trichotomy a c with hac | hac | hac
          · rw [if_pos hac]
          · subst hac
            rw [if_neg (lt_irrefl a), if_neg (lt_irrefl a)] at h1 h2 ⊢
            exact ih bs cs h1 h2
          · rw [if_pos hac, if_neg (lt_asymm hac)] at h2
            exact absurd h2 Bool.noConfusion
        · rw [if_pos hab, if_neg (lt_asymm hab)] at h1
          exact absurd h1 Bool.noConfusion

/-- The JS string order is antisymmetric. -/
theorem jsStrLeData_antisymm : ∀ as bs : List Char,
    jsStrLeData as bs = true → jsStrLeData bs as = true → as = bs := by
  intro as
  induction as with
  | nil =>
    intro bs _ h2
    cases bs with
    | nil => rfl
    | cons b bs => exact absurd h2 (by simp [jsStrLeData])
  | cons a as ih =>
    intro bs h1 h2
    cases bs with
    | nil => exact absurd h1 (by simp [jsStrLeData])
    | cons b bs =>
      unfold jsStrLeData at h1 h2
      rcases lt_trichotomy a b with hab | hab | hab
      · rw [if_neg (lt_asymm hab), if_pos hab] at h2
        exact absurd h2 Bool.noConfusion
      · subst hab
        rw [if_neg (lt_irrefl a), if_neg (lt_irrefl a)] at h1 h2
        rw [ih bs h1 h2]
      · rw [if_pos hab, if_neg (lt_asymm hab)] at h1
        exact absurd h1 Bool.noConfusion

instance : IsTotal String JsStrOrder :=
  ⟨fun a b => jsStrLeData_total a.data b.data⟩

instance : IsTrans String JsStrOrder :=
  ⟨fun a b c => jsStrLeData_trans a.data b.data c.data⟩

instance : IsAntisymm String JsStrOrder :=
  ⟨fun a b h1 h2 => by
    cases a with
    | mk da =>
      cases b with
      | mk db =>
        exact congrArg String.mk (jsStrLeData_antisymm da db h1 h2)⟩

/-- Counterexample to C5: `fetchQuotes` itself builds its request identity by
joining the symbols in the given order, without sorting — the permutation
`["B","A"]` of `["A","B"]` yields a different request URL. -/
theorem fetchQuotes_key_not_sorted_counterexample :
    (["B", "A"] : List String).Perm ["A", "B"] ∧
    fetchQuotesUrl ["B", "A"] ≠ fetchQuotesUrl ["A", "B"] := by
  constructor
  · decide
  · decide

/-- C5 (amended: the sorting+joining normalization lives in the `useQuotes`
hook's React Query cache key, not in `fetchQuotes`, whose request URL keeps
the given order): `useQuotes` computes its cache key as
`[...symbols].sort().join(",")`, so any two symbol lists that are
permutations of each other produce the same cache key and hence share the
same cached entry. -/
theorem useQuotes_cacheKey_perm_invariant (l1 l2 : List String)
    (h : l1.Perm l2) : useQuotesSortedKey l1 = useQuotesSortedKey l2 := by
  unfold useQuotesSortedKey jsSortStrings
  have hs : List.insertionSort JsStrOrder l1 =
      List.insertionSort JsStrOrder l2 :=
    List.eq_of_perm_of_sorted
      (((List.perm_insertionSort JsStrOrder l1).trans h).trans
        (List.perm_insertionSort JsStrOrder l2).symm)
      (List.sorted_insertionSort JsStrOrder l1)
      (List.sorted_insertionSort JsStrOrder l2)
  rw [hs]

/-- Witness for C5 (amended): the permutations `["B","A"]` and `["A","B"]`
share the cache key `"A,B"`. -/
theorem useQuotes_cacheKey_perm_invariant_witness :
    useQuotesSortedKey ["B", "A"] = useQuotesSortedKey ["A", "B"] :=
  useQuotes_cacheKey_perm_invariant ["B", "A"] ["A", "B"] (by decide)

/-! ## C6: merge-by-field import versus the import UI's wholesale write -/

/-- An import document whose only present field is `portfolios`. -/
def importDocFixture : ImportableState :=
  { portfolios := .arr [samplePortfolio "p1" []] }

/-- A live store holding a portfolio and a nonempty transaction list. -/
def importBaseStore : StoreState :=
  { emptyStore with
    portfolios := [samplePortfolio "p0" []],
    transactions := [sampleTx "t1" "h1"] }

/-- C6: on a document where only `portfolios` is present, the store's
`importState` overwrites `portfolios` and leaves the absent `transactions`
field untouched (merge-by-field, as the spec states) — but the import UI's
`handleImport`, which never calls `importState`, persists a wholesale
`storeData` whose `transactions` is the default `[]`, so the live store's
nonempty transactions are lost after the reload. -/
theorem import_merge_vs_wholesale_divergence :
    (importState importDocFixture importBaseStore).transactions =
      importBaseStore.transactions ∧
    importBaseStore.transactions ≠ [] ∧
    (importState importDocFixture importBaseStore).portfolios =
      [samplePortfolio "p1" []] ∧
    (handleImportStoreData importDocFixture).portfolios =
      [samplePortfolio "p1" []] ∧
    (handleImportStoreData importDocFixture).transactions = [] := by
  refine ⟨rfl, ?_, rfl, rfl, rfl⟩
  decide

end PortfolioTracker
